import Mathlib

/-!
Verification of the session lifecycle manager and test-script generation of
the playwright-mcp server, as a shallow embedding of `src/index.ts`.

Conventions of the embedding:
* JS timestamps (`Date.now()` values) are `Int`; differences may be negative.
* The JS `Map`s `sessions`, `electronSessions` are association lists in
  insertion order (`Map.set` on a fresh key appends; `Map.delete` removes the
  unique entry with that key, modelled as a filter on the key).
* External effects (browser/app close calls, `WriteStream.end`, `pkill`,
  `process.exit`) are recorded as an `Event` trace; a close call that throws
  is modelled by a `fails : Nat → Bool` oracle on the session handle — the
  `try/catch` in the source swallows the error and logs it
  (`Event.errorLogged`), so the oracle never changes control flow.
* In generated-script string literals, `\x7b`/`\x7d` denote `{`/`}` and
  `\x27` denotes a single quote.
-/

namespace PlaywrightMCP

/-! ## Data model (interfaces `TestAction`, `TestRecording`, sessions) -/

/-- The `assertion.type` union of `interface TestAction`. -/
inductive AssertType
  | text | visible | enabled | url | title
deriving DecidableEq

/-- The `assertion` sub-record of `interface TestAction`. -/
structure Assertion where
  type : AssertType
  expected : String
deriving DecidableEq

/-- The `type` union of `interface TestAction`. -/
inductive ActionType
  | navigate | click | fill | select | press | wait | assert
deriving DecidableEq

/-- `interface TestAction`: optional fields are `Option` (JS `undefined`). -/
structure TestAction where
  type : ActionType
  timestamp : Int
  selector : Option String := none
  value : Option String := none
  url : Option String := none
  assertion : Option Assertion := none
deriving DecidableEq

/-- The `viewport` record of the recording metadata. -/
structure Viewport where
  width : Nat
  height : Nat
deriving DecidableEq

/-- The `metadata` record of `interface TestRecording`. -/
structure Metadata where
  url : String
  viewport : Viewport
  userAgent : String
deriving DecidableEq

/-- `interface TestRecording`. -/
structure TestRecording where
  sessionId : String
  actions : List TestAction
  startTime : Int
  metadata : Metadata
deriving DecidableEq

/-- JS template-literal interpolation of a possibly-`undefined` string field:
`'${x}'` prints `undefined` when the field is absent. -/
def jsStr : Option String → String
  | some s => s
  | none => "undefined"

/-! ## Test-script generation (`generateTestScript` and the per-format
renderers, `src/index.ts` lines 1494-1647) -/

/-- One iteration of the `for (const action of actions)` switch in
`generatePlaywrightScript`: the text appended to `testBody` for `action`. -/
def renderPlaywrightAction (action : TestAction) : String :=
  match action.type with
  | .navigate =>
      "  // Navigate to page\n  await page.goto(\x27" ++ jsStr action.url ++ "\x27);\n\n"
  | .click =>
      "  // Click element\n  await page.click(\x27" ++ jsStr action.selector ++ "\x27);\n\n"
  | .fill =>
      "  // Fill input\n  await page.fill(\x27" ++ jsStr action.selector ++ "\x27, \x27" ++
        jsStr action.value ++ "\x27);\n\n"
  | .select =>
      "  // Select option\n  await page.selectOption(\x27" ++ jsStr action.selector ++
        "\x27, \x27" ++ jsStr action.value ++ "\x27);\n\n"
  | .press =>
      "  // Press key\n  await page.press(\x27" ++ jsStr action.selector ++ "\x27, \x27" ++
        jsStr action.value ++ "\x27);\n\n"
  | .wait =>
      "  // Wait for element\n  await page.waitForSelector(\x27" ++
        jsStr action.selector ++ "\x27);\n\n"
  | .assert =>
      match action.assertion with
      | none => ""
      | some a =>
        match a.type with
        | .text =>
            "  // Assert text content\n  await expect(page.locator(\x27" ++
              jsStr action.selector ++ "\x27)).toHaveText(\x27" ++ a.expected ++ "\x27);\n\n"
        | .visible =>
            "  // Assert element is visible\n  await expect(page.locator(\x27" ++
              jsStr action.selector ++ "\x27)).toBeVisible();\n\n"
        | .url =>
            "  // Assert URL\n  await expect(page).toHaveURL(\x27" ++
              a.expected ++ "\x27);\n\n"
        | .title =>
            "  // Assert page title\n  await expect(page).toHaveTitle(\x27" ++
              a.expected ++ "\x27);\n\n"
        | .enabled => ""

/-- `generatePlaywrightScript` (lines 1516-1566). -/
def generatePlaywrightScript (testName : String) (actions : List TestAction)
    (metadata : Metadata) : String :=
  let imports := "const \x7b test, expect \x7d = require(\x27@playwright/test\x27);\n\n"
  let testHeader := "test(\x27" ++ testName ++ "\x27, async (\x7b page \x7d) => \x7b\n"
  let testFooter := "\x7d);\n"
  let testBody0 := "  // Set viewport\n  await page.setViewportSize(\x7b width: " ++
    toString metadata.viewport.width ++ ", height: " ++
    toString metadata.viewport.height ++ " \x7d);\n\n"
  let testBody := actions.foldl (fun acc action => acc ++ renderPlaywrightAction action) testBody0
  imports ++ testHeader ++ testBody ++ testFooter

/-- One iteration of the switch in `generateActionSteps` (lines 1616-1647):
the text appended for `action`, given the indent and target format.
`select`, `press` and `wait` actions, and assertions whose type is not
`visible`, append nothing. -/
def renderActionStep (indent format : String) (action : TestAction) : String :=
  match action.type with
  | .navigate =>
      if format == "jest" then
        indent ++ "await page.goto(\x27" ++ jsStr action.url ++ "\x27);\n"
      else
        indent ++ "await driver.get(\x27" ++ jsStr action.url ++ "\x27);\n"
  | .click =>
      if format == "jest" then
        indent ++ "await page.click(\x27" ++ jsStr action.selector ++ "\x27);\n"
      else
        indent ++ "await driver.findElement(By.css(\x27" ++ jsStr action.selector ++
          "\x27)).click();\n"
  | .fill =>
      if format == "jest" then
        indent ++ "await page.type(\x27" ++ jsStr action.selector ++ "\x27, \x27" ++
          jsStr action.value ++ "\x27);\n"
      else
        indent ++ "await driver.findElement(By.css(\x27" ++ jsStr action.selector ++
          "\x27)).sendKeys(\x27" ++ jsStr action.value ++ "\x27);\n"
  | .assert =>
      match action.assertion with
      | some a =>
        if a.type = .visible then
          if format == "jest" then
            indent ++ "await expect(page.$(\x27" ++ jsStr action.selector ++
              "\x27)).resolves.toBeTruthy();\n"
          else
            indent ++ "const element = await driver.findElement(By.css(\x27" ++
              jsStr action.selector ++ "\x27));\n" ++ indent ++
              "assert(await element.isDisplayed());\n"
        else ""
      | none => ""
  | _ => ""

/-- `generateActionSteps` (lines 1616-1647). -/
def generateActionSteps (actions : List TestAction) (indent format : String) : String :=
  actions.foldl (fun steps action => steps ++ renderActionStep indent format action) ""

/-- `generateJestScript` (lines 1568-1591). -/
def generateJestScript (testName : String) (actions : List TestAction)
    (metadata : Metadata) : String :=
  "const puppeteer = require(\x27puppeteer\x27);\n\ndescribe(\x27" ++ testName ++
    "\x27, () => \x7b\n  let browser;\n  let page;\n\n  beforeAll(async () => \x7b\n" ++
    "    browser = await puppeteer.launch();\n    page = await browser.newPage();\n" ++
    "    await page.setViewport(\x7b width: " ++ toString metadata.viewport.width ++
    ", height: " ++ toString metadata.viewport.height ++ " \x7d);\n  \x7d);\n\n" ++
    "  afterAll(async () => \x7b\n    await browser.close();\n  \x7d);\n\n  test(\x27" ++
    testName ++ " test case\x27, async () => \x7b\n" ++
    generateActionSteps actions "    " "jest" ++ "\n  \x7d);\n\x7d);\n"

/-- `generateMochaScript` (lines 1593-1614). -/
def generateMochaScript (testName : String) (actions : List TestAction)
    (metadata : Metadata) : String :=
  "const \x7b Builder, By, until \x7d = require(\x27selenium-webdriver\x27);\n" ++
    "const assert = require(\x27assert\x27);\n\ndescribe(\x27" ++ testName ++
    "\x27, function() \x7b\n  let driver;\n\n  before(async function() \x7b\n" ++
    "    driver = await new Builder().forBrowser(\x27chrome\x27).build();\n" ++
    "    await driver.manage().window().setRect(\x7b width: " ++
    toString metadata.viewport.width ++ ", height: " ++
    toString metadata.viewport.height ++ " \x7d);\n  \x7d);\n\n" ++
    "  after(async function() \x7b\n    await driver.quit();\n  \x7d);\n\n  it(\x27" ++
    testName ++ " test case\x27, async function() \x7b\n" ++
    generateActionSteps actions "    " "mocha" ++ "\n  \x7d);\n\x7d);\n"

/-- `generateTestScript` (lines 1494-1514): dispatch on the format string,
defaulting to the playwright renderer. -/
def generateTestScript (recording : TestRecording) (testName : String)
    (format : String) : String :=
  match format with
  | "playwright" => generatePlaywrightScript testName recording.actions recording.metadata
  | "jest" => generateJestScript testName recording.actions recording.metadata
  | "mocha" => generateMochaScript testName recording.actions recording.metadata
  | _ => generatePlaywrightScript testName recording.actions recording.metadata

/-! ## Session registry state (`class PlaywrightMCPServer` fields) -/

/-- Configuration constant `SESSION_TIMEOUT` (30 minutes, in ms). -/
def SESSION_TIMEOUT : Int := 30 * 60 * 1000

/-- Configuration constant `MAX_MEMORY_MB`. -/
def MAX_MEMORY_MB : Nat := 2048

/-- `interface BrowserSession`. `handle` is the identity of the externally
owned `Browser` object; `pages` and `logStreams` are the key sets of the two
per-session maps. -/
structure BrowserSession where
  handle : Nat
  pages : List String
  lastActivity : Int
  createdAt : Int
  logStreams : List String
deriving DecidableEq

/-- `interface ElectronSession`. `handle` identifies the external
`ElectronApplication`. -/
structure ElectronSession where
  handle : Nat
  lastActivity : Int
  createdAt : Int
deriving DecidableEq

/-- The mutable fields of `PlaywrightMCPServer` relevant to the lifecycle
manager. -/
structure ServerState where
  sessions : List (String × BrowserSession)
  electronSessions : List (String × ElectronSession)
  isShuttingDown : Bool
deriving DecidableEq

/-- Externally observable effects of the lifecycle operations. -/
inductive Event
  | launchCall (handle : Nat)
  | browserCloseCall (handle : Nat)
  | appCloseCall (handle : Nat)
  | streamEnd (sessionId pageId : String)
  | errorLogged (sessionId : String)
  | pkillZombies
  | pkillAll
  | timerCleared
  | processExit
deriving DecidableEq

/-! ## Lifecycle operations -/

/-- `closeLogStreams` (lines 1715-1724): writes a footer and calls `end()` on
every log stream of the session, then clears the map. A missing session is a
no-op. -/
def closeLogStreams (st : ServerState) (sessionId : String) : ServerState × List Event :=
  match List.lookup sessionId st.sessions with
  | none => (st, [])
  | some s =>
    ({ st with
        sessions := st.sessions.map
          (fun e => if e.1 == sessionId then (e.1, { e.2 with logStreams := [] }) else e) },
     s.logStreams.map (fun pid => Event.streamEnd sessionId pid))

/-- `launchBrowser` (lines 755-800): fails fast when the id is taken (before
any external launch), otherwise launches, registers the session with
`createdAt = lastActivity = now`, a `main` page, and a `main` log stream
(`setupPageLogging`). -/
def launchBrowser (st : ServerState) (sessionId : String) (headless : Bool)
    (now : Int) (newHandle : Nat) : ServerState × List Event × String :=
  if (List.lookup sessionId st.sessions).isSome then
    (st, [], "Session " ++ sessionId ++ " already exists")
  else
    let session : BrowserSession :=
      { handle := newHandle, pages := ["main"], lastActivity := now,
        createdAt := now, logStreams := ["main"] }
    ({ st with sessions := st.sessions ++ [(sessionId, session)] },
     [Event.launchCall newHandle],
     "Browser launched with session ID: " ++ sessionId ++ " (headless: " ++
       (if headless then "true" else "false") ++ ")")

/-- `closeBrowser` (lines 802-829): ends the log streams, closes the browser
(errors caught and logged), and deletes the registry entry regardless. -/
def closeBrowser (fails : Nat → Bool) (st : ServerState) (sessionId : String) :
    ServerState × List Event × String :=
  match List.lookup sessionId st.sessions with
  | none => (st, [], "Session " ++ sessionId ++ " not found")
  | some session =>
    let cls := closeLogStreams st sessionId
    ({ cls.1 with sessions := cls.1.sessions.filter (fun e => e.1 != sessionId) },
     cls.2 ++ Event.browserCloseCall session.handle ::
       (if fails session.handle then [Event.errorLogged sessionId] else []),
     "Browser session " ++ sessionId ++ " closed")

/-- `closeElectron` (lines 1130-1155): closes the app (errors caught and
logged) and deletes the registry entry regardless. -/
def closeElectron (fails : Nat → Bool) (st : ServerState) (sessionId : String) :
    ServerState × List Event × String :=
  match List.lookup sessionId st.electronSessions with
  | none => (st, [], "Electron session " ++ sessionId ++ " not found")
  | some session =>
    ({ st with electronSessions := st.electronSessions.filter (fun e => e.1 != sessionId) },
     Event.appCloseCall session.handle ::
       (if fails session.handle then [Event.errorLogged sessionId] else []),
     "Electron session " ++ sessionId ++ " closed")

/-- `cleanupInactiveSessions` (lines 128-156), with the clock and the
`SESSION_TIMEOUT` constant as parameters: evicts every browser and then every
electron session with `now - lastActivity > timeout` (close errors caught),
deleting each evicted entry. The loop with conditional delete is modelled as
the evident filters. Note that no log streams are ended on this path. -/
def cleanupInactiveSessions (fails : Nat → Bool) (now timeout : Int)
    (st : ServerState) : ServerState × List Event :=
  let evictedB := st.sessions.filter (fun e => decide (timeout < now - e.2.lastActivity))
  let keptB := st.sessions.filter (fun e => !(decide (timeout < now - e.2.lastActivity)))
  let evictedE := st.electronSessions.filter (fun e => decide (timeout < now - e.2.lastActivity))
  let keptE := st.electronSessions.filter (fun e => !(decide (timeout < now - e.2.lastActivity)))
  ({ st with sessions := keptB, electronSessions := keptE },
   evictedB.flatMap (fun e => Event.browserCloseCall e.2.handle ::
       (if fails e.2.handle then [Event.errorLogged e.1] else [])) ++
     evictedE.flatMap (fun e => Event.appCloseCall e.2.handle ::
       (if fails e.2.handle then [Event.errorLogged e.1] else [])))

/-- The comparator `(a, b) => a[1].createdAt - b[1].createdAt` of
`cleanupOldestSessions`, as the ordering a stable ascending sort realises. -/
def byCreatedAt (a b : String × BrowserSession) : Prop :=
  a.2.createdAt ≤ b.2.createdAt

instance : DecidableRel byCreatedAt :=
  fun a b => inferInstanceAs (Decidable (a.2.createdAt ≤ b.2.createdAt))

instance : IsTotal (String × BrowserSession) byCreatedAt :=
  ⟨fun a b => Int.le_total a.2.createdAt b.2.createdAt⟩

instance : IsTrans (String × BrowserSession) byCreatedAt :=
  ⟨fun _ _ _ h1 h2 => le_trans h1 h2⟩

/-- `cleanupOldestSessions` (lines 191-209): stable-sorts the browser sessions
by `createdAt` (JS `Array.sort` is stable; modelled by insertion sort), closes
the first `max(1, floor(length * 0.25))` of them (close errors caught) and
deletes each from the registry. Electron sessions are not examined. No log
streams are ended on this path. -/
def cleanupOldestSessions (fails : Nat → Bool) (st : ServerState) :
    ServerState × List Event :=
  let browserSessions := List.insertionSort byCreatedAt st.sessions
  let toClose := max 1 (browserSessions.length / 4)
  let closed := browserSessions.take toClose
  ({ st with
      sessions := closed.foldl (fun m e => m.filter (fun x => x.1 != e.1)) st.sessions },
   closed.flatMap (fun e => Event.browserCloseCall e.2.handle ::
     (if fails e.2.handle then [Event.errorLogged e.1] else [])))

/-- `checkMemoryUsage` (lines 159-171): `rssKB` is the result of the
`ps -o rss=` probe (`none` when the probe throws; the `catch` makes the tick a
no-op). The source compares `rssKB / 1024 > MAX_MEMORY_MB` in exact float
arithmetic, which for integral `rssKB` is `rssKB > MAX_MEMORY_MB * 1024`. -/
def checkMemoryUsage (fails : Nat → Bool) (rssKB : Option Nat) (st : ServerState) :
    ServerState × List Event :=
  match rssKB with
  | none => (st, [])
  | some kb =>
    if MAX_MEMORY_MB * 1024 < kb then cleanupOldestSessions fails st else (st, [])

/-- `cleanupZombieProcesses` (lines 174-188): `pids` is the `pgrep` result
(`none` when process introspection throws; the `catch` ignores it). When the
process count exceeds `2 ×` the number of browser sessions, a best-effort
`pkill` of the oldest processes is issued; the registries are never touched. -/
def cleanupZombieProcesses (pids : Option (List Nat)) (st : ServerState) :
    ServerState × List Event :=
  match pids with
  | none => (st, [])
  | some ps =>
    if st.sessions.length * 2 < ps.length then (st, [Event.pkillZombies]) else (st, [])

/-- The per-session close events fired by the shutdown `cleanup` closure
(lines 225-242): one close call per browser session, then one per electron
session, each error-isolated by its own `try/catch`. -/
def closeAllEvents (fails : Nat → Bool) (st : ServerState) : List Event :=
  st.sessions.flatMap (fun e => Event.browserCloseCall e.2.handle ::
      (if fails e.2.handle then [Event.errorLogged e.1] else [])) ++
    st.electronSessions.flatMap (fun e => Event.appCloseCall e.2.handle ::
      (if fails e.2.handle then [Event.errorLogged e.1] else []))

/-- The shutdown `cleanup` closure of `setupProcessHandlers` (lines 212-265):
a re-entrant call observes `isShuttingDown` and returns at once; the first
call sets the flag, clears the timer, fires all closes, waits, pkills
leftovers and exits. The registry maps are not modified. -/
def cleanup (fails : Nat → Bool) (st : ServerState) : ServerState × List Event :=
  if st.isShuttingDown then (st, [])
  else
    ({ st with isShuttingDown := true },
     Event.timerCleared :: closeAllEvents fails st ++ [Event.pkillAll, Event.processExit])

/-- The list of external handles the shutdown closure closes, in the order the
close promises are created (browsers, then electron apps). -/
def closeHandles (st : ServerState) : List Nat :=
  st.sessions.map (fun e => e.2.handle) ++ st.electronSessions.map (fun e => e.2.handle)

/-- `Promise.all` over a list of close durations: `none` means the promise
never settles. `Promise.all` settles once every promise has, i.e. after the
maximum of the individual durations, and never if any one hangs. -/
def promiseAll : List (Option Nat) → Option Nat
  | [] => some 0
  | d :: rest =>
    match promiseAll rest with
    | none => none
    | some r =>
      match d with
      | none => none
      | some t => some (max t r)

/-- Completion time of the `await Promise.all([...browserClosePromises,
...electronClosePromises])` step of shutdown (line 242), given the duration of
each individual external close (`none` = that close never returns; a close
that throws is caught by its wrapper and still settles). -/
def shutdownWait (st : ServerState) (dur : Nat → Option Nat) : Option Nat :=
  promiseAll ((closeHandles st).map dur)

/-- Iterated `browser_launch` calls with a fixed session id: each call carries
its own `headless` flag, clock value and prospective fresh handle. Returns the
final state, all events, and the per-call result messages. -/
def applyLaunchSeq (st : ServerState) (sessionId : String) :
    List (Bool × Int × Nat) → ServerState × List Event × List String
  | [] => (st, [], [])
  | c :: rest =>
    let r1 := launchBrowser st sessionId c.1 c.2.1 c.2.2
    let r2 := applyLaunchSeq r1.1 sessionId rest
    (r2.1, r1.2.1 ++ r2.2.1, r1.2.2 :: r2.2.2)

/-! ## String occurrence helpers -/

/-- `pat` occurs as a contiguous substring of `s`. -/
def strOccurs (pat s : String) : Prop :=
  ∃ a b : String, s = a ++ (pat ++ b)

/-- Number of (possibly overlapping) occurrences of `pat` in a character
list. -/
def countOccur (pat : List Char) : List Char → Nat
  | [] => 0
  | c :: t => (if pat.isPrefixOf (c :: t) then 1 else 0) + countOccur pat t

theorem string_append_assoc (a b c : String) : a ++ b ++ c = a ++ (b ++ c) := by
  apply String.ext
  simp [String.data_append]

theorem string_append_empty (s : String) : s ++ "" = s := by
  apply String.ext
  rw [String.data_append]
  show s.data ++ [] = s.data
  simp

theorem string_empty_append (s : String) : "" ++ s = s := by
  apply String.ext
  rw [String.data_append]
  show [] ++ s.data = s.data
  simp

theorem strOccurs_of_eq {pat : String} (a b : String) {s : String}
    (h : s = a ++ (pat ++ b)) : strOccurs pat s :=
  ⟨a, b, h⟩

/-! ## Concrete states used in counterexamples and witnesses -/

/-- A browser session with handle 1, a `main` page, an open `main` log
stream, and both timestamps 0. -/
def bs0 : BrowserSession :=
  { handle := 1, pages := ["main"], lastActivity := 0, createdAt := 0,
    logStreams := ["main"] }

/-- An electron session with handle 7 and both timestamps 0. -/
def es0 : ElectronSession := { handle := 7, lastActivity := 0, createdAt := 0 }

/-- A state with one stale browser session and one stale electron session. -/
def stBoth : ServerState :=
  { sessions := [("s1", bs0)], electronSessions := [("e1", es0)],
    isShuttingDown := false }

/-- A state with no browser sessions and one electron session. -/
def stElecOnly : ServerState :=
  { sessions := [], electronSessions := [("e1", es0)], isShuttingDown := false }

/-- A state with one browser session and no electron sessions. -/
def stBrowserOnly : ServerState :=
  { sessions := [("s1", bs0)], electronSessions := [], isShuttingDown := false }

/-- The empty state. -/
def stEmpty : ServerState :=
  { sessions := [], electronSessions := [], isShuttingDown := false }

/-! ## Claim theorems -/

/-- C10: a memory-pressure pass (`checkMemoryUsage` and the
`cleanupOldestSessions` it may invoke) never changes the electron session
registry, whatever the state, the probe result, or the close-failure
behaviour. -/
theorem memory_pass_preserves_electron_sessions (fails : Nat → Bool)
    (rssKB : Option Nat) (st : ServerState) :
    ((cleanupOldestSessions fails st).1.electronSessions = st.electronSessions) ∧
    ((checkMemoryUsage fails rssKB st).1.electronSessions = st.electronSessions) := by
  constructor
  · simp [cleanupOldestSessions]
  · cases rssKB with
    | none => simp [checkMemoryUsage]
    | some kb =>
      by_cases h : MAX_MEMORY_MB * 1024 < kb
      · simp [checkMemoryUsage, h, cleanupOldestSessions]
      · simp [checkMemoryUsage, h]

/-- C9 (amended): `cleanupZombieProcesses` never changes the state; it issues
its `pkill` exactly when the probe succeeded and the process count exceeds
`2 ×` the number of *browser* sessions (electron sessions are not counted);
a failed probe makes the tick a no-op. -/
theorem zombie_policy_trigger_and_frame (pids : Option (List Nat))
    (st : ServerState) :
    ((cleanupZombieProcesses pids st).1 = st) ∧
    ((cleanupZombieProcesses pids st).2 = [Event.pkillZombies] ↔
      ∃ ps, pids = some ps ∧ st.sessions.length * 2 < ps.length) ∧
    (pids = none → (cleanupZombieProcesses pids st).2 = []) := by
  cases pids with
  | none => simp [cleanupZombieProcesses]
  | some ps =>
    by_cases h : st.sessions.length * 2 < ps.length
    · simp [cleanupZombieProcesses, h]
    · simp [cleanupZombieProcesses, h]

/-- C9 counterexample: with zero browser sessions, one electron session and a
single automation-engine process, the code fires its termination
(`1 > 2 * 0`), although the claim's trigger condition over the combined
registry size (`1 > 2 * (0 + 1)`) is false. The trigger compares against the
browser map only. -/
theorem zombie_threshold_ignores_electron_sessions :
    (cleanupZombieProcesses (some [101]) stElecOnly).2 = [Event.pkillZombies] ∧
    ¬ ((stElecOnly.sessions.length + stElecOnly.electronSessions.length) * 2 <
        [101].length) := by
  decide

/-- C2 (code-bug evidence): a session evicted for inactivity, evicted under
memory pressure, or closed by shutdown has its registry entry removed and its
browser closed, but none of its log streams are ended — the full event traces
contain no `streamEnd` — even though the explicit `closeBrowser` path (last
conjunct) does end them before closing. The log sinks are therefore not
released on three of the four destruction paths. -/
theorem idle_eviction_never_ends_log_streams :
    ((cleanupInactiveSessions (fun _ => false) (SESSION_TIMEOUT + 1)
        SESSION_TIMEOUT stBoth).1.sessions = [] ∧
      (cleanupInactiveSessions (fun _ => false) (SESSION_TIMEOUT + 1)
        SESSION_TIMEOUT stBoth).2 =
        [Event.browserCloseCall 1, Event.appCloseCall 7]) ∧
    (cleanupOldestSessions (fun _ => false) stBoth).2 = [Event.browserCloseCall 1] ∧
    (cleanup (fun _ => false) stBoth).2 =
      [Event.timerCleared, Event.browserCloseCall 1, Event.appCloseCall 7,
        Event.pkillAll, Event.processExit] ∧
    (closeBrowser (fun _ => false) stBoth "s1").2.1 =
      [Event.streamEnd "s1" "main", Event.browserCloseCall 1] := by
  decide

/-- C3 counterexample: with one registered session whose external close never
returns, the shutdown wait never completes (`Promise.all` never settles), so
no overall bound exists; "completes within a bounded overall wait even if an
individual close call never returns" fails — there is no timeout race in the
shutdown path. -/
theorem shutdown_hangs_on_nonterminating_close :
    shutdownWait stBrowserOnly (fun _ => none) = none := by
  decide

/-- Auxiliary: `Promise.all` over promises that all settle settles at the
maximum of their durations. -/
theorem promiseAll_eq_max (ds : List (Option Nat)) (h : ∀ d ∈ ds, d.isSome) :
    promiseAll ds = some ((ds.map (fun d => d.getD 0)).foldr max 0) := by
  induction ds with
  | nil => rfl
  | cons d rest ih =>
    obtain ⟨t, rfl⟩ := Option.isSome_iff_exists.mp (h d (List.mem_cons_self d rest))
    have hr := ih (fun x hx => h x (List.mem_cons_of_mem _ hx))
    simp [promiseAll, hr]

/-- C3 (amended): shutdown fires one error-isolated close per browser and per
electron session (all of them appear in the trace before the wait), and the
overall wait is the maximum of the individual close durations — latency
proportional to the slowest close, not their sum — provided every close
eventually returns. (By the counterexample, a close that never returns makes
the wait unbounded.) -/
theorem shutdown_concurrent_wait_is_max (fails : Nat → Bool) (st : ServerState)
    (dur : Nat → Option Nat)
    (hflag : st.isShuttingDown = false)
    (hdur : ∀ x ∈ closeHandles st, (dur x).isSome) :
    ((cleanup fails st).2 =
      Event.timerCleared :: closeAllEvents fails st ++
        [Event.pkillAll, Event.processExit]) ∧
    (∀ e ∈ st.sessions, Event.browserCloseCall e.2.handle ∈ (cleanup fails st).2) ∧
    (∀ e ∈ st.electronSessions, Event.appCloseCall e.2.handle ∈ (cleanup fails st).2) ∧
    shutdownWait st dur =
      some (((closeHandles st).map (fun x => (dur x).getD 0)).foldr max 0) := by
  refine ⟨by simp [cleanup, hflag], ?_, ?_, ?_⟩
  · intro e he
    have hmem : Event.browserCloseCall e.2.handle ∈ closeAllEvents fails st :=
      List.mem_append_left _
        (List.mem_flatMap.mpr ⟨e, he, List.mem_cons_self _ _⟩)
    simp [cleanup, hflag, List.mem_cons, List.mem_append]
    tauto
  · intro e he
    have hmem : Event.appCloseCall e.2.handle ∈ closeAllEvents fails st :=
      List.mem_append_right _
        (List.mem_flatMap.mpr ⟨e, he, List.mem_cons_self _ _⟩)
    simp [cleanup, hflag, List.mem_cons, List.mem_append]
    tauto
  · rw [shutdownWait, promiseAll_eq_max _ (fun d hd => by
      obtain ⟨x, hx, rfl⟩ := List.mem_map.mp hd
      exact hdur x hx)]
    rw [List.map_map]
    rfl

/-- C3 witness: concrete instantiation of `shutdown_concurrent_wait_is_max`
with two sessions whose closes take 5 time units each. -/
theorem shutdown_concurrent_wait_is_max_witness :
    shutdownWait stBoth (fun _ => some 5) = some 5 := by
  have h := (shutdown_concurrent_wait_is_max (fun _ => false) stBoth
    (fun _ => some 5) rfl (by decide)).2.2.2
  rw [h]
  decide

/-- C4: shutdown is idempotent. A first trigger on a non-shutting-down state
performs exactly one full close sequence and sets `isShuttingDown`; any
invocation after that observes the flag and returns as a no-op, producing no
events (in particular, starting no external closes) and leaving the state
unchanged. -/
theorem shutdown_idempotent (fails : Nat → Bool) (st : ServerState)
    (h : st.isShuttingDown = false) :
    ((cleanup fails st).2 =
      Event.timerCleared :: closeAllEvents fails st ++
        [Event.pkillAll, Event.processExit]) ∧
    ((cleanup fails st).1.isShuttingDown = true) ∧
    (cleanup fails (cleanup fails st).1 = ((cleanup fails st).1, [])) := by
  simp [cleanup, h]

/-- C4 witness: concrete double trigger on a state with one browser and one
electron session. -/
theorem shutdown_idempotent_witness :
    cleanup (fun _ => false) (cleanup (fun _ => false) stBoth).1 =
      ((cleanup (fun _ => false) stBoth).1, []) :=
  (shutdown_idempotent (fun _ => false) stBoth rfl).2.2

/-- C6: for every clock value, every timeout value and every close-failure
behaviour, a registered session (browser or electron) is removed by the
idle-timeout pass exactly when `now - lastActivity > timeout`; one with
`now - lastActivity <= timeout` is never evicted by this pass. -/
theorem idle_timeout_candidate_iff (fails : Nat → Bool) (now timeout : Int)
    (st : ServerState) (sid : String) :
    (∀ s : BrowserSession, (sid, s) ∈ st.sessions →
      (((sid, s) ∉ ((cleanupInactiveSessions fails now timeout st).1).sessions) ↔
        timeout < now - s.lastActivity)) ∧
    (∀ s : ElectronSession, (sid, s) ∈ st.electronSessions →
      (((sid, s) ∉ ((cleanupInactiveSessions fails now timeout st).1).electronSessions) ↔
        timeout < now - s.lastActivity)) := by
  constructor
  · intro s hmem
    simp [cleanupInactiveSessions, List.mem_filter, hmem]
    omega
  · intro s hmem
    simp [cleanupInactiveSessions, List.mem_filter, hmem]
    omega

/-- C6 witness: with the default timeout, a browser session idle for
`SESSION_TIMEOUT + 1` ms is evicted, and one idle for exactly
`SESSION_TIMEOUT` ms is kept. -/
theorem idle_timeout_candidate_iff_witness :
    (("s1", bs0) ∉ (cleanupInactiveSessions (fun _ => false)
        (SESSION_TIMEOUT + 1) SESSION_TIMEOUT stBoth).1.sessions) ∧
    ¬ (("s1", bs0) ∉ (cleanupInactiveSessions (fun _ => false)
        SESSION_TIMEOUT SESSION_TIMEOUT stBoth).1.sessions) :=
  ⟨((idle_timeout_candidate_iff (fun _ => false) (SESSION_TIMEOUT + 1)
        SESSION_TIMEOUT stBoth "s1").1 bs0 (by decide)).mpr (by decide),
   fun h => absurd (((idle_timeout_candidate_iff (fun _ => false) SESSION_TIMEOUT
        SESSION_TIMEOUT stBoth "s1").1 bs0 (by decide)).mp h) (by decide)⟩

/-- Auxiliary: appending a fresh binding at the tail makes it the lookup
result when the key was absent. -/
theorem lookup_append_single {β : Type} (l : List (String × β)) (sid : String)
    (v : β) (h : List.lookup sid l = none) :
    List.lookup sid (l ++ [(sid, v)]) = some v := by
  induction l with
  | nil => simp [List.lookup]
  | cons a l ih =>
    rw [List.cons_append, List.lookup]
    rw [List.lookup] at h
    cases hk : (sid == a.1) with
    | true => rw [hk] at h; simp at h
    | false => rw [hk] at h; exact ih h

/-- Auxiliary: once the id is registered, any further `browser_launch`
sequence with that id is pure no-op reporting `already exists`. -/
theorem applyLaunchSeq_of_registered (sid : String) (calls : List (Bool × Int × Nat))
    (st : ServerState) (hsome : (List.lookup sid st.sessions).isSome) :
    applyLaunchSeq st sid calls =
      (st, [], calls.map (fun _ => "Session " ++ sid ++ " already exists")) := by
  induction calls with
  | nil => rfl
  | cons c rest ih =>
    rw [applyLaunchSeq]
    rw [show launchBrowser st sid c.1 c.2.1 c.2.2 =
        (st, [], "Session " ++ sid ++ " already exists") from by
      simp [launchBrowser, hsome]]
    rw [ih]
    simp

/-- C7: with a fresh session id, the first `browser_launch` performs exactly
one external launch and registers the session with `createdAt = lastActivity
= now`; every subsequent call with the same id (any clock, headless flag or
prospective handle) reports that the session already exists, performs no
launch, and leaves the registry — including the first call's entry, its
`createdAt` and its handle — completely unchanged. -/
theorem launch_existing_id_reports_already_exists (st : ServerState)
    (sid : String) (headless : Bool) (now : Int) (newHandle : Nat)
    (calls : List (Bool × Int × Nat))
    (h0 : List.lookup sid st.sessions = none) :
    ((launchBrowser st sid headless now newHandle).2.1 = [Event.launchCall newHandle]) ∧
    ((launchBrowser st sid headless now newHandle).1.sessions =
      st.sessions ++ [(sid,
        { handle := newHandle, pages := ["main"], lastActivity := now,
          createdAt := now, logStreams := ["main"] })]) ∧
    (applyLaunchSeq (launchBrowser st sid headless now newHandle).1 sid calls =
      ((launchBrowser st sid headless now newHandle).1, [],
        calls.map (fun _ => "Session " ++ sid ++ " already exists"))) := by
  have hno : ¬ (List.lookup sid st.sessions).isSome = true := by
    rw [h0]; simp
  refine ⟨by simp [launchBrowser, hno], by simp [launchBrowser, hno], ?_⟩
  apply applyLaunchSeq_of_registered
  rw [show (launchBrowser st sid headless now newHandle).1.sessions =
      st.sessions ++ [(sid,
        { handle := newHandle, pages := ["main"], lastActivity := now,
          createdAt := now, logStreams := ["main"] })] from by
    simp [launchBrowser, hno]]
  rw [lookup_append_single _ _ _ h0]
  rfl

/-- C7 witness: two further launch calls with the id of an existing session
are no-ops that report `already exists`. -/
theorem launch_existing_id_reports_already_exists_witness :
    applyLaunchSeq (launchBrowser stEmpty "s9" true 3 2).1 "s9"
        [(true, 4, 5), (false, 6, 8)] =
      ((launchBrowser stEmpty "s9" true 3 2).1, [],
        ["Session s9 already exists", "Session s9 already exists"]) :=
  (launch_existing_id_reports_already_exists stEmpty "s9" true 3 2
    [(true, 4, 5), (false, 6, 8)] (by decide)).2.2

/-- C8: the removal of a session's registry entry by a close operation does
not depend on whether the external close call throws: the post-state under
any two failure behaviours is identical, for `closeBrowser`, `closeElectron`
and the idle-eviction pass alike; and a registered session is in fact removed
by its close operation (the error having been caught and logged). -/
theorem close_failure_still_removes_entry (st : ServerState) (sid sidE : String)
    (failsA failsB : Nat → Bool) (now timeout : Int)
    (hb : (List.lookup sid st.sessions).isSome)
    (he : (List.lookup sidE st.electronSessions).isSome) :
    ((closeBrowser failsA st sid).1 = (closeBrowser failsB st sid).1) ∧
    (sid ∉ ((closeBrowser failsA st sid).1).sessions.map Prod.fst) ∧
    ((closeElectron failsA st sidE).1 = (closeElectron failsB st sidE).1) ∧
    (sidE ∉ ((closeElectron failsA st sidE).1).electronSessions.map Prod.fst) ∧
    ((cleanupInactiveSessions failsA now timeout st).1 =
      (cleanupInactiveSessions failsB now timeout st).1) := by
  obtain ⟨s, hs⟩ := Option.isSome_iff_exists.mp hb
  obtain ⟨t, ht⟩ := Option.isSome_iff_exists.mp he
  refine ⟨?_, ?_, ?_, ?_, rfl⟩
  · simp [closeBrowser, hs]
  · simp only [closeBrowser, hs]
    intro hmem
    obtain ⟨x, hx, hx1⟩ := List.mem_map.mp hmem
    have := (List.mem_filter.mp hx).2
    rw [hx1] at this
    simp at this
  · simp [closeElectron, ht]
  · simp only [closeElectron, ht]
    intro hmem
    obtain ⟨x, hx, hx1⟩ := List.mem_map.mp hmem
    have := (List.mem_filter.mp hx).2
    rw [hx1] at this
    simp at this

/-- C8 witness: closing the concrete sessions of `stBoth` removes their
entries whether or not the external close throws. -/
theorem close_failure_still_removes_entry_witness :
    (closeBrowser (fun _ => true) stBoth "s1").1 =
      (closeBrowser (fun _ => false) stBoth "s1").1 ∧
    "s1" ∉ ((closeBrowser (fun _ => true) stBoth "s1").1).sessions.map Prod.fst :=
  ⟨(close_failure_still_removes_entry stBoth "s1" "e1" (fun _ => true)
      (fun _ => false) 0 0 (by decide) (by decide)).1,
   (close_failure_still_removes_entry stBoth "s1" "e1" (fun _ => true)
      (fun _ => false) 0 0 (by decide) (by decide)).2.1⟩

/-! ## Memory-pressure eviction (C5) -/

/-- The sorted snapshot `browserSessions` taken by `cleanupOldestSessions`. -/
def sortedSessions (st : ServerState) : List (String × BrowserSession) :=
  List.insertionSort byCreatedAt st.sessions

/-- The close budget `Math.max(1, Math.floor(browserSessions.length * 0.25))`. -/
def toCloseCount (st : ServerState) : Nat :=
  max 1 ((sortedSessions st).length / 4)

/-- The sessions `cleanupOldestSessions` closes: the first `toCloseCount`
entries of the sorted snapshot. -/
def closedSessions (st : ServerState) : List (String × BrowserSession) :=
  (sortedSessions st).take (toCloseCount st)

/-- Auxiliary: iterated key deletion equals one filter over the key set. -/
theorem foldl_filter_key (cs l : List (String × BrowserSession)) :
    cs.foldl (fun m e => m.filter (fun x => x.1 != e.1)) l
      = l.filter (fun x => decide (x.1 ∉ cs.map Prod.fst)) := by
  induction cs generalizing l with
  | nil => simp
  | cons c cs ih =>
    rw [List.foldl_cons, ih, List.filter_filter]
    apply List.filter_congr
    intro x _
    simp [List.mem_cons, not_or, Bool.and_comm, bne]

/-- Auxiliary: inserting an element into any list commutes with filtering by
an exact `createdAt` value — elements skipped by the insertion are strictly
older, so insertion is stable on creation-time ties. -/
theorem filter_createdAt_orderedInsert (t : Int) (a : String × BrowserSession)
    (l : List (String × BrowserSession)) :
    (List.orderedInsert byCreatedAt a l).filter (fun e => decide (e.2.createdAt = t))
      = if a.2.createdAt = t
        then a :: l.filter (fun e => decide (e.2.createdAt = t))
        else l.filter (fun e => decide (e.2.createdAt = t)) := by
  induction l with
  | nil =>
    rw [List.orderedInsert]
    by_cases hat : a.2.createdAt = t <;> simp [hat]
  | cons b l ih =>
    rw [List.orderedInsert]
    by_cases hab : byCreatedAt a b
    · rw [if_pos hab, List.filter_cons, List.filter_cons]
      by_cases hat : a.2.createdAt = t <;> simp [hat]
    · rw [if_neg hab]
      have hba : b.2.createdAt < a.2.createdAt := by
        simp only [byCreatedAt, not_le] at hab
        exact hab
      rw [List.filter_cons]
      by_cases hat : a.2.createdAt = t
      · have hbt : ¬ b.2.createdAt = t := by omega
        simp [hat, hbt, ih]
      · simp [hat, ih, List.filter_cons]

/-- Auxiliary: the stable sort used by `cleanupOldestSessions` preserves,
for every creation time, the relative (registry-insertion) order of the
sessions created at that time. -/
theorem filter_createdAt_insertionSort (t : Int)
    (l : List (String × BrowserSession)) :
    (List.insertionSort byCreatedAt l).filter (fun e => decide (e.2.createdAt = t))
      = l.filter (fun e => decide (e.2.createdAt = t)) := by
  induction l with
  | nil => rfl
  | cons a l ih =>
    rw [List.insertionSort, filter_createdAt_orderedInsert]
    by_cases hat : a.2.createdAt = t <;> simp [hat, ih, List.filter_cons]

/-- C5: when the memory probe exceeds the threshold and `N > 0` browser
sessions exist with distinct ids, the pass closes and removes exactly
`max(1, floor(0.25 * N))` sessions, namely the first `toCloseCount` entries
of the stable `createdAt` sort: every closed id leaves the registry, every
other entry stays, every closed session is no younger than every survivor,
and ties in `createdAt` are broken stably by registry order (last conjunct). -/
theorem memory_pressure_evicts_quarter_oldest (fails : Nat → Bool)
    (st : ServerState) (kb : Nat)
    (hmem : MAX_MEMORY_MB * 1024 < kb)
    (hN : 0 < st.sessions.length)
    (hkeys : (st.sessions.map Prod.fst).Nodup) :
    checkMemoryUsage fails (some kb) st = cleanupOldestSessions fails st ∧
    (closedSessions st).length = toCloseCount st ∧
    (checkMemoryUsage fails (some kb) st).1.sessions.length =
      st.sessions.length - toCloseCount st ∧
    (∀ e ∈ closedSessions st,
      e.1 ∉ (checkMemoryUsage fails (some kb) st).1.sessions.map Prod.fst) ∧
    (∀ e ∈ st.sessions, e.1 ∉ (closedSessions st).map Prod.fst →
      e ∈ (checkMemoryUsage fails (some kb) st).1.sessions) ∧
    (∀ c ∈ closedSessions st,
      ∀ k ∈ (checkMemoryUsage fails (some kb) st).1.sessions,
        c.2.createdAt ≤ k.2.createdAt) ∧
    (∀ t : Int,
      (sortedSessions st).filter (fun e => decide (e.2.createdAt = t)) =
        st.sessions.filter (fun e => decide (e.2.createdAt = t))) := by
  have hfire : checkMemoryUsage fails (some kb) st = cleanupOldestSessions fails st := by
    show (if MAX_MEMORY_MB * 1024 < kb then cleanupOldestSessions fails st
      else (st, [])) = cleanupOldestSessions fails st
    rw [if_pos hmem]
  have hsorted_perm : List.Perm (sortedSessions st) st.sessions :=
    List.perm_insertionSort byCreatedAt st.sessions
  have hlen : (sortedSessions st).length = st.sessions.length :=
    hsorted_perm.length_eq
  have h_toClose_le : toCloseCount st ≤ (sortedSessions st).length := by
    rw [toCloseCount]
    omega
  have h_closed_len : (closedSessions st).length = toCloseCount st := by
    rw [closedSessions, List.length_take]
    omega
  have h_split : closedSessions st ++ (sortedSessions st).drop (toCloseCount st)
      = sortedSessions st := List.take_append_drop _ _
  have h_result_sessions : (cleanupOldestSessions fails st).1.sessions
      = st.sessions.filter (fun x => decide (x.1 ∉ (closedSessions st).map Prod.fst)) := by
    show (closedSessions st).foldl (fun m e => m.filter (fun x => x.1 != e.1)) st.sessions
      = st.sessions.filter (fun x => decide (x.1 ∉ (closedSessions st).map Prod.fst))
    exact foldl_filter_key _ _
  have h_sorted_keys : ((sortedSessions st).map Prod.fst).Nodup :=
    ((hsorted_perm.map Prod.fst).nodup_iff).mpr hkeys
  have h_keys_split : ((closedSessions st).map Prod.fst ++
      ((sortedSessions st).drop (toCloseCount st)).map Prod.fst).Nodup := by
    rw [← List.map_append, h_split]
    exact h_sorted_keys
  have h_disj : ∀ k ∈ (closedSessions st).map Prod.fst,
      k ∉ ((sortedSessions st).drop (toCloseCount st)).map Prod.fst :=
    (List.nodup_append.mp h_keys_split).2.2
  have h_closed_filter : (closedSessions st).filter
      (fun x => decide (x.1 ∉ (closedSessions st).map Prod.fst)) = [] := by
    rw [List.filter_eq_nil_iff]
    intro e hee
    have h1 : e.1 ∈ (closedSessions st).map Prod.fst := List.mem_map.mpr ⟨e, hee, rfl⟩
    simp [h1]
  have h_rest_filter : ((sortedSessions st).drop (toCloseCount st)).filter
      (fun x => decide (x.1 ∉ (closedSessions st).map Prod.fst))
      = (sortedSessions st).drop (toCloseCount st) := by
    rw [List.filter_eq_self]
    intro e hee
    have h1 : e.1 ∈ ((sortedSessions st).drop (toCloseCount st)).map Prod.fst :=
      List.mem_map.mpr ⟨e, hee, rfl⟩
    have h2 : e.1 ∉ (closedSessions st).map Prod.fst := fun hc => h_disj _ hc h1
    exact decide_eq_true h2
  have h_sorted_filter : (sortedSessions st).filter
      (fun x => decide (x.1 ∉ (closedSessions st).map Prod.fst))
      = (sortedSessions st).drop (toCloseCount st) := by
    conv_lhs => rw [← h_split]
    rw [List.filter_append, h_closed_filter, h_rest_filter, List.nil_append]
  have h_result_perm : List.Perm (cleanupOldestSessions fails st).1.sessions
      ((sortedSessions st).drop (toCloseCount st)) := by
    rw [h_result_sessions, ← h_sorted_filter]
    exact (hsorted_perm.filter _).symm
  refine ⟨hfire, h_closed_len, ?_, ?_, ?_, ?_, ?_⟩
  · rw [hfire]
    have := h_result_perm.length_eq
    rw [List.length_drop] at this
    omega
  · intro e he hcontra
    rw [hfire, h_result_sessions] at hcontra
    obtain ⟨x, hx, hx1⟩ := List.mem_map.mp hcontra
    have hxp := (List.mem_filter.mp hx).2
    rw [hx1] at hxp
    have : e.1 ∈ (closedSessions st).map Prod.fst := List.mem_map.mpr ⟨e, he, rfl⟩
    simp [this] at hxp
  · intro e hee hnot
    rw [hfire, h_result_sessions]
    exact List.mem_filter.mpr ⟨hee, decide_eq_true hnot⟩
  · intro c hc k hk
    rw [hfire] at hk
    have hkrest : k ∈ (sortedSessions st).drop (toCloseCount st) :=
      h_result_perm.mem_iff.mp hk
    have hsorted : List.Sorted byCreatedAt (sortedSessions st) :=
      List.sorted_insertionSort byCreatedAt st.sessions
    rw [← h_split] at hsorted
    exact (List.pairwise_append.mp hsorted).2.2 c hc k hkrest
  · intro t
    exact filter_createdAt_insertionSort t st.sessions

/-- Four browser sessions with distinct ids and distinct creation times
(registry order differs from age order). -/
def stFour : ServerState :=
  { sessions := [
      ("s1", { handle := 1, pages := ["main"], lastActivity := 3, createdAt := 3,
               logStreams := ["main"] }),
      ("s2", { handle := 2, pages := ["main"], lastActivity := 1, createdAt := 1,
               logStreams := ["main"] }),
      ("s3", { handle := 3, pages := ["main"], lastActivity := 2, createdAt := 2,
               logStreams := ["main"] }),
      ("s4", { handle := 4, pages := ["main"], lastActivity := 4, createdAt := 4,
               logStreams := ["main"] })],
    electronSessions := [], isShuttingDown := false }

/-- C5 witness: with four sessions and a probe above the threshold, exactly
`4 - max(1, 4/4) = 3` sessions remain. -/
theorem memory_pressure_evicts_quarter_oldest_witness :
    (checkMemoryUsage (fun _ => false) (some (MAX_MEMORY_MB * 1024 + 1))
        stFour).1.sessions.length =
      stFour.sessions.length - toCloseCount stFour :=
  (memory_pressure_evicts_quarter_oldest (fun _ => false) stFour
    (MAX_MEMORY_MB * 1024 + 1) (by omega) (by decide) (by decide)).2.2.1

/-! ## Recording round-trip (C1) -/

/-- The fixed action sequence of the round-trip scenario: a recording bound to
session `sid` whose actions are `[navigate(url = X), assert(url, X)]`. -/
def roundTripRecording (sid X : String) (ts1 ts2 startT : Int)
    (md : Metadata) : TestRecording :=
  { sessionId := sid,
    actions := [
      { type := .navigate, timestamp := ts1, url := some X },
      { type := .assert, timestamp := ts2,
        assertion := some { type := .url, expected := X } }],
    startTime := startT, metadata := md }

/-- C1 (amended): for every URL `X`, rendering the round-trip recording
produces a script containing the navigation statement referencing `X` in all
three formats, and an assertion statement referencing `X` in the playwright
format. (By the counterexample below, the jest and mocha renderers drop
`url`-type assertions, so no assertion referencing `X` appears there.) -/
theorem recording_roundtrip_navigation_and_assertion (X name sid : String)
    (ts1 ts2 startT : Int) (md : Metadata) :
    strOccurs ("await page.goto(\x27" ++ X ++ "\x27);")
      (generateTestScript (roundTripRecording sid X ts1 ts2 startT md) name "playwright") ∧
    strOccurs ("await expect(page).toHaveURL(\x27" ++ X ++ "\x27);")
      (generateTestScript (roundTripRecording sid X ts1 ts2 startT md) name "playwright") ∧
    strOccurs ("await page.goto(\x27" ++ X ++ "\x27);")
      (generateTestScript (roundTripRecording sid X ts1 ts2 startT md) name "jest") ∧
    strOccurs ("await driver.get(\x27" ++ X ++ "\x27);")
      (generateTestScript (roundTripRecording sid X ts1 ts2 startT md) name "mocha") := by
  refine ⟨?_, ?_, ?_, ?_⟩
  · refine strOccurs_of_eq
      ("const \x7b test, expect \x7d = require(\x27@playwright/test\x27);\n\n" ++
        ("test(\x27" ++ name ++ "\x27, async (\x7b page \x7d) => \x7b\n") ++
        ("  // Set viewport\n  await page.setViewportSize(\x7b width: " ++
          toString md.viewport.width ++ ", height: " ++
          toString md.viewport.height ++ " \x7d);\n\n") ++
        "  // Navigate to page\n  ")
      ("\n\n" ++
        ("  // Assert URL\n  await expect(page).toHaveURL(\x27" ++ X ++ "\x27);\n\n") ++
        "\x7d);\n") ?_
    simp only [generateTestScript, generatePlaywrightScript, renderPlaywrightAction,
      roundTripRecording, jsStr, List.foldl]
    rw [show ("  // Navigate to page\n  await page.goto(\x27" : String) =
      "  // Navigate to page\n  " ++ "await page.goto(\x27" from rfl]
    rw [show ("\x27);\n\n" : String) = "\x27);" ++ "\n\n" from rfl]
    simp only [string_append_assoc]
  · refine strOccurs_of_eq
      ("const \x7b test, expect \x7d = require(\x27@playwright/test\x27);\n\n" ++
        ("test(\x27" ++ name ++ "\x27, async (\x7b page \x7d) => \x7b\n") ++
        ("  // Set viewport\n  await page.setViewportSize(\x7b width: " ++
          toString md.viewport.width ++ ", height: " ++
          toString md.viewport.height ++ " \x7d);\n\n") ++
        ("  // Navigate to page\n  await page.goto(\x27" ++ X ++ "\x27);\n\n") ++
        "  // Assert URL\n  ")
      ("\n\n" ++ "\x7d);\n") ?_
    simp only [generateTestScript, generatePlaywrightScript, renderPlaywrightAction,
      roundTripRecording, jsStr, List.foldl]
    rw [show ("  // Assert URL\n  await expect(page).toHaveURL(\x27" : String) =
      "  // Assert URL\n  " ++ "await expect(page).toHaveURL(\x27" from rfl]
    rw [show ("\x27);\n\n" : String) = "\x27);" ++ "\n\n" from rfl]
    simp only [string_append_assoc]
  · refine strOccurs_of_eq
      ("const puppeteer = require(\x27puppeteer\x27);\n\ndescribe(\x27" ++ name ++
        ("\x27, () => \x7b\n  let browser;\n  let page;\n\n  beforeAll(async () => \x7b\n" ++
         "    browser = await puppeteer.launch();\n    page = await browser.newPage();\n" ++
         "    await page.setViewport(\x7b width: ") ++ toString md.viewport.width ++
        ", height: " ++ toString md.viewport.height ++
        (" \x7d);\n  \x7d);\n\n" ++
         "  afterAll(async () => \x7b\n    await browser.close();\n  \x7d);\n\n  test(\x27") ++
        name ++ " test case\x27, async () => \x7b\n" ++ "    ")
      ("\n" ++ "\n  \x7d);\n\x7d);\n") ?_
    simp only [generateTestScript, generateJestScript, generateActionSteps,
      renderActionStep, roundTripRecording, jsStr, List.foldl]
    simp only [beq_self_eq_true, if_true, reduceCtorEq, if_false, string_append_empty,
      string_empty_append]
    rw [show ("\x27);\n" : String) = "\x27);" ++ "\n" from rfl]
    simp only [string_append_assoc]
  · refine strOccurs_of_eq
      ("const \x7b Builder, By, until \x7d = require(\x27selenium-webdriver\x27);\n" ++
        "const assert = require(\x27assert\x27);\n\ndescribe(\x27" ++ name ++
        "\x27, function() \x7b\n  let driver;\n\n  before(async function() \x7b\n" ++
        "    driver = await new Builder().forBrowser(\x27chrome\x27).build();\n" ++
        "    await driver.manage().window().setRect(\x7b width: " ++
        toString md.viewport.width ++ ", height: " ++ toString md.viewport.height ++
        " \x7d);\n  \x7d);\n\n" ++
        ("  after(async function() \x7b\n    await driver.quit();\n  \x7d);\n\n  it(\x27") ++
        name ++ " test case\x27, async function() \x7b\n" ++ "    ")
      ("\n" ++ "\n  \x7d);\n\x7d);\n") ?_
    simp only [generateTestScript, generateMochaScript, generateActionSteps,
      renderActionStep, roundTripRecording, jsStr, List.foldl]
    simp only [show (("mocha" == "jest") : Bool) = false from rfl, Bool.false_eq_true,
      if_false, reduceCtorEq, string_append_empty, string_empty_append]
    rw [show ("\x27);\n" : String) = "\x27);" ++ "\n" from rfl]
    simp only [string_append_assoc]

/-- The round-trip recording at the concrete URL used by the counterexample. -/
def cxRecording : TestRecording :=
  roundTripRecording "s1" "https://spec.example/x" 0 0 0
    { url := "https://spec.example/x", viewport := { width := 1920, height := 1080 },
      userAgent := "UA" }

set_option maxRecDepth 40000 in
/-- C1 counterexample: at a concrete URL `X`, the jest and mocha renderings of
the round-trip recording contain exactly one occurrence of `X`, and that
occurrence is the navigation statement (conjuncts 2 and 4). Hence no
assertion statement referencing `X` exists in those formats — their
`generateActionSteps` renders `assert` actions only when the assertion type
is `visible`, dropping the `url` assertion — refuting the claim for the jest
and mocha formats. -/
theorem jest_mocha_drop_url_assertion :
    countOccur ("https://spec.example/x" : String).data
        (generateTestScript cxRecording "t1" "jest").data = 1 ∧
    countOccur ("await page.goto(\x27https://spec.example/x\x27);" : String).data
        (generateTestScript cxRecording "t1" "jest").data = 1 ∧
    countOccur ("https://spec.example/x" : String).data
        (generateTestScript cxRecording "t1" "mocha").data = 1 ∧
    countOccur ("await driver.get(\x27https://spec.example/x\x27);" : String).data
        (generateTestScript cxRecording "t1" "mocha").data = 1 := by
  refine ⟨?_, ?_, ?_, ?_⟩ <;> decide

end PlaywrightMCP
